import Mathlib

/-!
Verification of the blog domain objects (`core/domain/blog_domain.py`) and
the blog batch-validation transforms (`jobs/transforms/blog_validations.py`,
`jobs/blog_validation_error.py`) of this repository.

Python is embedded shallowly: the domain classes become Lean structures,
`utils.ValidationError` and the interpreter-level errors become an error
type, a method that can raise returns `Option String` (the raised message)
or `Except PyErr _`, and a method that can also write fields returns the
resulting object.  External collaborators (identity resolution, HTML
sanitization, the url-fragment and thumbnail-filename legality checks of
`utils`, datetime-to-string conversion) are explicit function parameters.
-/

set_option autoImplicit false

namespace Oppia

/-- Lowercase ASCII letter, Python's `string.ascii_lowercase` membership. -/
def isLowerAZ (c : Char) : Bool := 'a' ≤ c && c ≤ 'z'

/-- Uppercase ASCII letter. -/
def isUpperAZ (c : Char) : Bool := 'A' ≤ c && c ≤ 'Z'

/-- ASCII letter (a-zA-Z). -/
def isLetterAZ (c : Char) : Bool := isLowerAZ c || isUpperAZ c

/-- Python regex class `\s` restricted to ASCII: space, tab, newline,
carriage return, vertical tab, form feed. -/
def isPyWhitespace (c : Char) : Bool :=
  c == ' ' || c == '\t' || c == '\n' || c == '\r' || c == '\x0b' || c == '\x0c'

/-- Errors the embedded Python code can raise: Oppia's
`utils.ValidationError` with its message, and the interpreter-level
`NameError` / `TypeError` that the jobs code triggers. -/
inductive PyErr where
  | validationError (msg : String)
  | nameError (name : String)
  | typeError (msg : String)
deriving DecidableEq, Repr

/-! ## Tag validation, `BlogPost.require_valid_tags` (blog_domain.py lines 126-171) -/

/-- Modelled from the spec: `constants.TAG_REGEX` is not under `src/`; the
spec (section 4.1) gives the pattern as `^[a-z ]+$`, i.e. a non-empty string
of lowercase letters and spaces. `re.match` with both anchors is a full
match. -/
def TAG_REGEX_match (tag : String) : Bool :=
  !tag.data.isEmpty && tag.data.all (fun c => isLowerAZ c || c == ' ')

/-- Head of a character list is a lowercase letter (`tag[0] in
string.ascii_lowercase`; the empty case is unreachable after the regex
check). -/
def headIsLower : List Char → Bool
  | [] => false
  | c :: _ => isLowerAZ c

/-- Last character is a lowercase letter (`tag[-1] in
string.ascii_lowercase`). -/
def lastIsLower (l : List Char) : Bool :=
  match l.getLast? with
  | some c => isLowerAZ c
  | none => false

/-- Whether two adjacent whitespace characters occur, `re.search(r'\s\s+',
tag)` finding a match. -/
def hasAdjacentWhitespace : List Char → Bool
  | [] => false
  | [_] => false
  | a :: b :: t => (isPyWhitespace a && isPyWhitespace b) || hasAdjacentWhitespace (b :: t)

/-- The per-tag checks of the `for tag in tags` loop of
`BlogPost.require_valid_tags`, in source order; the isinstance check is
trivial in the typed embedding.  Returns the first raised message. -/
def check_tag (tag : String) : Option String :=
  if !TAG_REGEX_match tag then
    some ("Tags should only contain lowercase letters and spaces, received: \x27"
      ++ tag ++ "\x27")
  else if !(headIsLower tag.data && lastIsLower tag.data) then
    some ("Tags should not start or end with whitespace, received: \x27"
      ++ tag ++ "\x27")
  else if hasAdjacentWhitespace tag.data then
    some ("Adjacent whitespace in tags should be collapsed, received: \x27"
      ++ tag ++ "\x27")
  else none

/-- `BlogPost.require_valid_tags(tags, strict)`: the per-tag loop, then the
strict non-emptiness check, then the duplicate check via
`len(set(tags)) != len(tags)` (set cardinality embedded as `List.dedup`
length). -/
def BlogPost.require_valid_tags (tags : List String) (strict : Bool) : Option String :=
  match tags.findSome? check_tag with
  | some e => some e
  | none =>
    if strict && tags.length == 0 then
      some "Atleast one tag should be selected"
    else if tags.dedup.length ≠ tags.length then
      some "Some tags duplicate each other"
    else none

/-! ## The claim-side tag pattern `^[a-z]+( [a-z]+)*$` -/

/-- Deterministic matcher for the regular expression `^w+( w+)*$` where `w`
is the character class `letter`: the state is `true` right after a letter
(acceptance state), `false` at the start or right after a space. -/
def wordsDfa (letter : Char → Bool) : Bool → List Char → Bool
  | st, [] => st
  | st, c :: rest =>
    if letter c then wordsDfa letter true rest
    else if c == ' ' then st && wordsDfa letter false rest
    else false

/-- The claim's tag pattern `^[a-z]+( [a-z]+)*$`: lowercase words separated
by single spaces. -/
def matchesTagPattern (tag : String) : Bool :=
  wordsDfa isLowerAZ false tag.data

/-! ## Title validation (blog_domain.py lines 173-199 and 457-478) -/

/-- Modelled from the spec: `constants.VALID_BLOG_POST_TITLE_REGEX` is not
under `src/`; the spec (section 4.1) calls it "a restricted word-and-space
pattern" and the raising site's own message reads "Only words (a-zA-Z)
separated by spaces are allowed", so it is modelled as words of ASCII
letters separated by single spaces. -/
def VALID_BLOG_POST_TITLE_REGEX_match (title : String) : Bool :=
  wordsDfa isLetterAZ false title.data

/-- `BlogPost.require_valid_title(title, strict)`: the length cap
(`constants.MAX_CHARS_IN_BLOG_POST_TITLE`, an external constant passed here
as `titleLimit`), then in strict mode non-emptiness and the title regex.
The isinstance check is trivial in the typed embedding. -/
def BlogPost.require_valid_title (titleLimit : Nat) (title : String) (strict : Bool) :
    Option String :=
  if titleLimit < title.length then
    some ("Blog Post title should at most have " ++ toString titleLimit
      ++ " chars, received: " ++ title)
  else if strict then
    if title = "" then some "Title should not be empty"
    else if !VALID_BLOG_POST_TITLE_REGEX_match title then
      some ("Title field contains invalid characters. Only words"
        ++ "(a-zA-Z) separated by spaces are allowed. Received " ++ title)
    else none
  else none

/-- `BlogPostSummary.require_valid_title(title, strict)` (lines 457-478):
the same length cap, and in strict mode only the non-emptiness check — the
summary class has no regex check. -/
def BlogPostSummary.require_valid_title (titleLimit : Nat) (title : String) (strict : Bool) :
    Option String :=
  if titleLimit < title.length then
    some ("blog post title should at most have " ++ toString titleLimit
      ++ " chars, received: " ++ title)
  else if strict then
    if title = "" then some "Title should not be empty"
    else none
  else none

/-! ## Thumbnail-filename validation (lines 65-85 and 383-404)

`utils.require_valid_thumbnail_filename` is an external collaborator (the
spec's "thumbnail-filename legality check") and is passed in as
`utilsThumb`, returning the raised message if any.  A `None` filename
(`Option.none`) fails the strict isinstance-str check. -/

/-- `BlogPost.require_valid_thumbnail_filename(thumbnail_filename, strict)`. -/
def BlogPost.require_valid_thumbnail_filename
    (utilsThumb : Option String → Option String)
    (thumbnail_filename : Option String) (strict : Bool) : Option String :=
  if strict && thumbnail_filename.isNone then
    some "Expected thumbnail filename to be a string, received: None."
  else if thumbnail_filename = some "" then
    some "Thumbnail filename should not be empty."
  else utilsThumb thumbnail_filename

/-- `BlogPostSummary.require_valid_thumbnail_filename`: same checks, the
empty-filename message lacking the final period. -/
def BlogPostSummary.require_valid_thumbnail_filename
    (utilsThumb : Option String → Option String)
    (thumbnail_filename : Option String) (strict : Bool) : Option String :=
  if strict && thumbnail_filename.isNone then
    some "Expected thumbnail filename to be a string, received: None."
  else if thumbnail_filename = some "" then
    some "Thumbnail filename should not be empty"
  else utilsThumb thumbnail_filename

/-! ## Remaining field validators -/

/-- `require_valid_blog_post_id` (both classes, lines 112-124 and 431-443):
the id must be a 12-character string. -/
def require_valid_blog_post_id (blog_post_id : String) : Option String :=
  if blog_post_id.length ≠ 12 then some "Invalid Blog Post ID." else none

/-- `BlogPostSummary.require_valid_tags` (lines 480-522): textually the same
checks as `BlogPost.require_valid_tags`. -/
def BlogPostSummary.require_valid_tags (tags : List String) (strict : Bool) : Option String :=
  match tags.findSome? check_tag with
  | some e => some e
  | none =>
    if strict && tags.length == 0 then
      some "Atleast one tag should be selected"
    else if tags.dedup.length ≠ tags.length then
      some "Some tags duplicate each other"
    else none

/-! ## The BlogPost domain object (lines 34-348)

Datetimes are embedded as `Nat` (a naive timestamp); the external
`utils.convert_naive_datetime_to_string` / `_string_to_naive_datetime_object`
pair is passed in as `dtToStr` / `strToDt`.  `html_cleaner.clean` is passed
in as `clean`, and `user_services.get_user_id_from_username` as `uidOf`
(`none` for a lookup that finds no user; a `None` argument finds none). -/

structure BlogPost where
  id : String
  author_id : Option String
  title : String
  content : String
  url_fragment : String
  tags : List String
  thumbnail_filename : Option String
  last_updated : Option Nat
  published_on : Option Nat
deriving DecidableEq, Repr

/-- The `BlogPost.__init__` constructor (lines 37-63): stores the fields,
sanitizing `content` through `html_cleaner.clean`. -/
def BlogPost.init (clean : String → String) (blog_post_id : String)
    (author_id : Option String) (title content url_fragment : String)
    (tags : List String) (thumbnail_filename : Option String)
    (last_updated published_on : Option Nat) : BlogPost :=
  { id := blog_post_id, author_id := author_id, title := title,
    thumbnail_filename := thumbnail_filename, content := clean content,
    published_on := published_on, last_updated := last_updated,
    url_fragment := url_fragment, tags := tags }

/-- The transport dictionary built by `BlogPost.to_dict` and read back by
`from_dict`/`deserialize`; a `none` timestamp field is an absent key.  The
`json.dumps`/`json.loads` pair is an exact inverse on this payload, so the
JSON string layer is elided. -/
structure BlogPostDict where
  id : String
  author_name : Option String
  title : String
  content : String
  thumbnail_filename : Option String
  tags : List String
  url_fragment : String
  last_updated : Option String
  published_on : Option String
deriving DecidableEq, Repr

/-- `BlogPost.to_dict` (lines 213-228): n.b. the `author_name` key is filled
with `get_user_id_from_username(self.author_id)`. -/
def BlogPost.to_dict (uidOf : Option String → Option String) (p : BlogPost) :
    BlogPostDict :=
  { id := p.id, author_name := uidOf p.author_id, title := p.title,
    content := p.content, thumbnail_filename := p.thumbnail_filename,
    tags := p.tags, url_fragment := p.url_fragment,
    last_updated := none, published_on := none }

/-- `BlogPost.serialize` (lines 258-274): the dict of `to_dict`, with each
non-null timestamp added under its key as a converted string. -/
def BlogPost.serialize (uidOf : Option String → Option String)
    (dtToStr : Nat → String) (p : BlogPost) : BlogPostDict :=
  let d := p.to_dict uidOf
  let d := match p.last_updated with
    | some t => { d with last_updated := some (dtToStr t) }
    | none => d
  match p.published_on with
  | some t => { d with published_on := some (dtToStr t) }
  | none => d

/-- `BlogPost.from_dict` (lines 276-303): resolves
`get_user_id_from_username(dict['author_name'])` and rebuilds the object
through the constructor. -/
def BlogPost.from_dict (clean : String → String)
    (uidOf : Option String → Option String) (d : BlogPostDict)
    (blog_post_published_on blog_post_last_updated : Option Nat) : BlogPost :=
  BlogPost.init clean d.id (uidOf d.author_name) d.title d.content
    d.url_fragment d.tags d.thumbnail_filename
    blog_post_last_updated blog_post_published_on

/-- `BlogPost.deserialize` (lines 230-256): timestamps are restored from
their keys when present, then `from_dict` rebuilds the object. -/
def BlogPost.deserialize (clean : String → String)
    (uidOf : Option String → Option String) (strToDt : String → Nat)
    (d : BlogPostDict) : BlogPost :=
  let published_on := d.published_on.map strToDt
  let last_updated := d.last_updated.map strToDt
  BlogPost.from_dict clean uidOf d published_on last_updated

/-- `BlogPost.validate(strict)` (lines 87-110) with the object threaded
through: the pair is the object as left by the call and the raised message,
if any.  `utils.require_valid_url_fragment` (with the fragment limit and
name already applied) is the external parameter `urlCheck`; the
isinstance-str check on `content` is trivial in the typed embedding. -/
def BlogPost.validateRun (utilsThumb : Option String → Option String)
    (urlCheck : String → Option String) (titleLimit : Nat)
    (p : BlogPost) (strict : Bool) : BlogPost × Option String :=
  match require_valid_blog_post_id p.id with
  | some e => (p, some e)
  | none =>
  match BlogPost.require_valid_title titleLimit p.title strict with
  | some e => (p, some e)
  | none =>
  match BlogPost.require_valid_tags p.tags strict with
  | some e => (p, some e)
  | none =>
  match BlogPost.require_valid_thumbnail_filename utilsThumb p.thumbnail_filename strict with
  | some e => (p, some e)
  | none =>
  if strict then
    match urlCheck p.url_fragment with
    | some e => (p, some e)
    | none =>
      if p.content = "" then (p, some "Content can not be empty") else (p, none)
  else (p, none)

/-- `BlogPost.update_title` (lines 305-312): strict validation of the new
title, then the single field write. -/
def BlogPost.update_title (titleLimit : Nat) (p : BlogPost) (new_title : String) :
    Except String BlogPost :=
  match BlogPost.require_valid_title titleLimit new_title true with
  | some e => .error e
  | none => .ok { p with title := new_title }

/-- `BlogPost.update_url_fragment` (lines 314-321): the url-fragment
legality check on the new fragment, then the field write. -/
def BlogPost.update_url_fragment (urlCheck : String → Option String)
    (p : BlogPost) (new_url_fragment : String) : Except String BlogPost :=
  match urlCheck new_url_fragment with
  | some e => .error e
  | none => .ok { p with url_fragment := new_url_fragment }

/-- `BlogPost.update_thumbnail_filename` (lines 323-331): n.b. the source
validates `self.thumbnail_filename` — the current value, not the new one —
and with the default `strict=False`, then writes the new value. -/
def BlogPost.update_thumbnail_filename (utilsThumb : Option String → Option String)
    (p : BlogPost) (new_thumbnail_filename : Option String) : Except String BlogPost :=
  match BlogPost.require_valid_thumbnail_filename utilsThumb p.thumbnail_filename false with
  | some e => .error e
  | none => .ok { p with thumbnail_filename := new_thumbnail_filename }

/-- `BlogPost.update_content` (lines 333-339): no validation at all, the
sanitized new content is written unconditionally. -/
def BlogPost.update_content (clean : String → String) (p : BlogPost)
    (content : String) : Except String BlogPost :=
  .ok { p with content := clean content }

/-- `BlogPost.update_tags` (lines 341-348): strict validation of the new
tags, then the field write. -/
def BlogPost.update_tags (p : BlogPost) (tags : List String) :
    Except String BlogPost :=
  match BlogPost.require_valid_tags tags true with
  | some e => .error e
  | none => .ok { p with tags := tags }

/-! ## The BlogPostSummary domain object (lines 351-558) -/

structure BlogPostSummary where
  id : String
  author_id : Option String
  title : String
  summary : String
  url_fragment : String
  tags : List String
  thumbnail_filename : Option String
  last_updated : Option Nat
  published_on : Option Nat
deriving DecidableEq, Repr

/-- `BlogPostSummary.validate(strict)` (lines 406-429) with the object
threaded through, like `BlogPost.validateRun`; the strict tail checks the
url fragment and that `summary` is non-empty. -/
def BlogPostSummary.validateRun (utilsThumb : Option String → Option String)
    (urlCheck : String → Option String) (titleLimit : Nat)
    (s : BlogPostSummary) (strict : Bool) : BlogPostSummary × Option String :=
  match require_valid_blog_post_id s.id with
  | some e => (s, some e)
  | none =>
  match BlogPostSummary.require_valid_title titleLimit s.title strict with
  | some e => (s, some e)
  | none =>
  match BlogPostSummary.require_valid_tags s.tags strict with
  | some e => (s, some e)
  | none =>
  match BlogPostSummary.require_valid_thumbnail_filename utilsThumb s.thumbnail_filename strict with
  | some e => (s, some e)
  | none =>
  if strict then
    match urlCheck s.url_fragment with
    | some e => (s, some e)
    | none =>
      if s.summary = "" then (s, some "Summary can not be empty") else (s, none)
  else (s, none)

/-! ## The BlogPostRights domain object (lines 561-601) -/

structure BlogPostRights where
  id : String
  editor_ids : List String
  blog_post_is_published : Bool
deriving DecidableEq, Repr

/-- Python equality between a `str or None` value and a `str`: `None` never
equals a string. -/
def pyEqOptStr : Option String → String → Bool
  | none, _ => false
  | some a, b => a == b

/-- `BlogPostRights.is_editor(user_id)` (lines 591-600):
`bool(user_id in self.editor_ids)`, membership under Python equality. -/
def BlogPostRights.is_editor (r : BlogPostRights) (user_id : Option String) : Bool :=
  r.editor_ids.any (fun e => pyEqOptStr user_id e)

/-! ## Batch-validation transforms (jobs/transforms/blog_validations.py)
and blog audit errors (jobs/blog_validation_error.py)

The stored records the DoFns process: the fields the transforms touch. -/

structure BlogPostModelRec where
  id : String
  title : String
  url_fragment : String
deriving DecidableEq, Repr

/--
`ValidateBlogModelDomainObjectsInstances._get_domain_object_validation_type`
(blog_validations.py lines 42-57).  The body's first statement is
`blog_post_rights = blog_services.get_blog_post_rights(item.id, strict=True)`,
but the module imports no `blog_services` and the method's parameter is
named `unused_item`, not `item` (`VALIDATION_MODES` is unbound too), so
under Python name resolution every call raises
`NameError: name 'blog_services' is not defined` before any rights record
is consulted. -/
def getDomainObjectValidationType (unused_item : BlogPostModelRec) :
    Except PyErr String :=
  Except.error (PyErr.nameError "blog_services")

/-- `ValidateTitleMatchesSummaryModelTitle.process` (blog_validations.py
lines 65-81).  `summaryTitleOf` stands for the datastore lookup
`blog_models.BlogPostSummaryModel.get_by_id(item.id).title`.  When the
title is non-empty and differs from the summary's, the yield line
`yield blog_validation_errors.ValidateTitleMatchesSummaryTitleError(model)`
executes — but the module imports `user_validation_errors`, not
`blog_validation_errors` (and the local `model` is also unbound), so that
branch raises `NameError: name 'blog_validation_errors' is not defined`
instead of yielding.  The result on success is the list of yielded errors
(never non-empty, as the only yield is the raising line). -/
def ValidateTitleMatchesSummaryModelTitle.process
    (summaryTitleOf : String → String) (input_model : BlogPostModelRec) :
    Except PyErr (List String) :=
  let item := input_model
  if item.title ≠ "" then
    let blog_post_summary_title := summaryTitleOf item.id
    if blog_post_summary_title ≠ item.title then
      Except.error (PyErr.nameError "blog_validation_errors")
    else Except.ok []
  else Except.ok []

/-- Modelled from the spec: `utils.quoted` is not under `src/`; the spec
says an error carries "the offending title, quoted", so it is modelled as
wrapping the text in double quotes. -/
def utils_quoted (s : String) : String := "\x22" ++ s ++ "\x22"

/-- The message built by `DuplicateBlogTitleError.__init__`
(blog_validation_error.py lines 24-29): `'title=%s is not unique' %
utils.quoted(model.title)`. -/
def DuplicateBlogTitleError.message (m : BlogPostModelRec) : String :=
  "title=" ++ utils_quoted m.title ++ " is not unique"

/-- The message built by `DuplicateBlogUrlError.__init__`
(blog_validation_error.py lines 32-37): `'url=%s is not unique' %
utils.quoted(model.title)` — built from `model.title`, not the model's url
field.  (The constructor then calls
`super(DuplicateBlogTitleError, self).__init__`, naming the sibling class,
which raises `TypeError` at instantiation; the message expression itself is
what this definition embeds.) -/
def DuplicateBlogUrlError.message (m : BlogPostModelRec) : String :=
  "url=" ++ utils_quoted m.title ++ " is not unique"

/-! ## Lemmas: the three per-tag checks are the pattern `^[a-z]+( [a-z]+)*$` -/

theorem isPyWhitespace_space : isPyWhitespace ' ' = true := rfl

theorem ws_false_of_lower {c : Char} (h : isLowerAZ c = true) :
    isPyWhitespace c = false := by
  simp only [isLowerAZ, Bool.and_eq_true, decide_eq_true_eq] at h
  by_contra hws
  rw [Bool.not_eq_false] at hws
  simp only [isPyWhitespace, Bool.or_eq_true, beq_iff_eq] at hws
  rcases hws with ((((rfl | rfl) | rfl) | rfl) | rfl) | rfl <;>
    exact absurd h.1 (by decide)

theorem space_ne_lower {c : Char} (h : isLowerAZ c = true) : ¬ c = ' ' := by
  rintro rfl
  exact absurd h (by decide)

theorem lastIsLower_nil : lastIsLower [] = false := rfl

theorem lastIsLower_singleton (c : Char) : lastIsLower [c] = isLowerAZ c := rfl

theorem lastIsLower_cons_cons (a b : Char) (l : List Char) :
    lastIsLower (a :: b :: l) = lastIsLower (b :: l) := by
  simp [lastIsLower, List.getLast?_cons_cons]

theorem hasAdjacentWhitespace_cons_cons (a b : Char) (l : List Char) :
    hasAdjacentWhitespace (a :: b :: l) =
      ((isPyWhitespace a && isPyWhitespace b) || hasAdjacentWhitespace (b :: l)) := rfl

/-- Characterization of the word-list matcher for the lowercase alphabet:
acceptance from state `st` means the list is the empty suffix in the
accepting state, or consists of lowercase letters and spaces, ends in a
letter, has no two adjacent whitespace characters, and (when starting from
the non-accepting state) begins with a letter. -/
theorem wordsDfa_isLowerAZ_iff (l : List Char) : ∀ st : Bool,
    wordsDfa isLowerAZ st l = true ↔
      ((l = [] ∧ st = true) ∨
        (l ≠ [] ∧ (∀ c ∈ l, isLowerAZ c = true ∨ c = ' ') ∧
          lastIsLower l = true ∧ hasAdjacentWhitespace l = false ∧
          (st = true ∨ headIsLower l = true))) := by
  induction l with
  | nil => intro st; simp [wordsDfa]
  | cons c t ih =>
    intro st
    cases hc : isLowerAZ c with
    | true =>
      have hws : isPyWhitespace c = false := ws_false_of_lower hc
      rw [show wordsDfa isLowerAZ st (c :: t) = wordsDfa isLowerAZ true t by
        simp [wordsDfa, hc]]
      rw [ih true]
      cases t with
      | nil =>
        simp [lastIsLower_singleton, hasAdjacentWhitespace, headIsLower, hc]
      | cons x t' =>
        rw [lastIsLower_cons_cons, hasAdjacentWhitespace_cons_cons, hws]
        simp only [Bool.false_and, Bool.false_or]
        constructor
        · rintro (⟨h, -⟩ | ⟨-, hall, hlast, hadj, -⟩)
          · exact absurd h (by simp)
          · exact Or.inr ⟨by simp, by
              intro d hd
              rcases List.mem_cons.mp hd with rfl | hd
              · exact Or.inl hc
              · exact hall d hd, hlast, hadj, Or.inr (by simp [headIsLower, hc])⟩
        · rintro (⟨h, -⟩ | ⟨-, hall, hlast, hadj, -⟩)
          · exact absurd h (by simp)
          · exact Or.inr ⟨by simp, fun d hd => hall d (List.mem_cons_of_mem c hd),
              hlast, hadj, Or.inl (by simp)⟩
    | false =>
      by_cases hsp : c = ' '
      · subst hsp
        rw [show wordsDfa isLowerAZ st (' ' :: t) =
            (st && wordsDfa isLowerAZ false t) by simp [wordsDfa, hc]]
        cases t with
        | nil =>
          constructor
          · intro h
            rw [show wordsDfa isLowerAZ false [] = false from rfl,
              Bool.and_false] at h
            exact absurd h (by simp)
          · rintro (⟨h, -⟩ | ⟨-, -, hlast, -, -⟩)
            · exact absurd h (by simp)
            · exact absurd hlast (by decide)
        | cons x t' =>
          rw [Bool.and_eq_true, ih false]
          rw [lastIsLower_cons_cons, hasAdjacentWhitespace_cons_cons,
            isPyWhitespace_space]
          simp only [Bool.true_and, Bool.or_eq_false_iff]
          constructor
          · rintro ⟨hst, (⟨h, -⟩ | ⟨-, hall, hlast, hadj, hhead⟩)⟩
            · exact absurd h (by simp)
            · have hx : isLowerAZ x = true := by
                rcases hhead with h | h
                · exact absurd h (by simp)
                · simpa [headIsLower] using h
              refine Or.inr ⟨by simp, ?_, hlast, ⟨ws_false_of_lower hx, hadj⟩,
                Or.inl hst⟩
              intro d hd
              rcases List.mem_cons.mp hd with rfl | hd
              · exact Or.inr rfl
              · exact hall d hd
          · rintro (⟨h, -⟩ | ⟨-, hall, hlast, ⟨hxws, hadj⟩, hst⟩)
            · exact absurd h (by simp)
            · have hst' : st = true := by
                rcases hst with h | h
                · exact h
                · exact absurd h (by simp [headIsLower, hc])
              have hx : isLowerAZ x = true := by
                rcases hall x (by simp) with h | h
                · exact h
                · rw [h] at hxws; exact absurd hxws (by decide)
              exact ⟨hst', Or.inr ⟨by simp,
                fun d hd => hall d (List.mem_cons_of_mem ' ' hd), hlast, hadj,
                Or.inr (by simp [headIsLower, hx])⟩⟩
      · rw [show wordsDfa isLowerAZ st (c :: t) = false by simp [wordsDfa, hc, hsp]]
        simp only [Bool.false_eq_true, false_iff]
        rintro (⟨h, -⟩ | ⟨-, hall, -, -, -⟩)
        · exact absurd h (by simp)
        · rcases hall c (by simp) with h | h
          · exact absurd h (by simp [hc])
          · exact hsp h

/-- The per-tag loop body accepts a tag exactly when the tag matches the
pattern `^[a-z]+( [a-z]+)*$`. -/
theorem check_tag_eq_none_iff (t : String) :
    check_tag t = none ↔ matchesTagPattern t = true := by
  have hchar := wordsDfa_isLowerAZ_iff t.data false
  rw [matchesTagPattern]
  unfold check_tag TAG_REGEX_match
  split_ifs with h1 h2 h3
  · simp only [reduceCtorEq, false_iff]
    intro hm
    rcases hchar.mp hm with ⟨-, hst⟩ | ⟨hne, hall, -, -, -⟩
    · exact absurd hst (by simp)
    · have hempty : t.data.isEmpty = false := by
        cases hl : t.data with
        | nil => exact absurd hl hne
        | cons a l => rfl
      have hallb : t.data.all (fun c => isLowerAZ c || c == ' ') = true := by
        rw [List.all_eq_true]
        intro c hc
        rcases hall c hc with h | h
        · simp [h]
        · simp [h]
      rw [hempty, hallb] at h1
      exact absurd h1 (by decide)
  · simp only [reduceCtorEq, false_iff]
    intro hm
    rcases hchar.mp hm with ⟨-, hst⟩ | ⟨-, -, hlast, -, hhead⟩
    · exact absurd hst (by simp)
    · have hhead' : headIsLower t.data = true := by
        rcases hhead with h | h
        · exact absurd h (by simp)
        · exact h
      rw [hhead', hlast] at h2
      exact absurd h2 (by decide)
  · simp only [reduceCtorEq, false_iff]
    intro hm
    rcases hchar.mp hm with ⟨-, hst⟩ | ⟨-, -, -, hadj, -⟩
    · exact absurd hst (by simp)
    · rw [hadj] at h3
      exact absurd h3 (by decide)
  · simp only [true_iff]
    rw [Bool.not_eq_true, Bool.not_eq_false', Bool.and_eq_true] at h1 h2
    rw [Bool.not_eq_true] at h3
    refine hchar.mpr (Or.inr ⟨?_, ?_, h2.2, h3, Or.inr h2.1⟩)
    · intro hl
      rw [hl] at h1
      exact absurd h1.1 (by decide)
    · intro c hc
      have hcb := List.all_eq_true.mp h1.2 c hc
      rcases (by simpa using hcb : isLowerAZ c = true ∨ c = ' ') with h | h
      · exact Or.inl h
      · exact Or.inr h

/-- Claim C2's success condition for a tag list. -/
def tagsSpecOk (tags : List String) (strict : Bool) : Prop :=
  (∀ t ∈ tags, matchesTagPattern t = true) ∧ tags.Nodup ∧
    (strict = true → tags ≠ [])

/-- C2: `BlogPost.require_valid_tags` raises nothing exactly when every tag
matches `^[a-z]+( [a-z]+)*$`, there is no duplicate, and in strict mode the
list is non-empty.  Stated for all tag lists and both strictness flags. -/
theorem require_valid_tags_eq_none_iff (tags : List String) (strict : Bool) :
    BlogPost.require_valid_tags tags strict = none ↔ tagsSpecOk tags strict := by
  unfold BlogPost.require_valid_tags tagsSpecOk
  cases hf : tags.findSome? check_tag with
  | some e =>
    simp only [reduceCtorEq, false_iff]
    rintro ⟨hall, -, -⟩
    have : tags.findSome? check_tag = none := by
      rw [List.findSome?_eq_none_iff]
      intro t ht
      exact (check_tag_eq_none_iff t).mpr (hall t ht)
    rw [this] at hf
    exact absurd hf (by simp)
  | none =>
    have hall : ∀ t ∈ tags, matchesTagPattern t = true := by
      intro t ht
      exact (check_tag_eq_none_iff t).mp (List.findSome?_eq_none_iff.mp hf t ht)
    by_cases hse : strict = true ∧ tags = []
    · rw [if_pos (by simp [hse.1, hse.2])]
      simp only [reduceCtorEq, false_iff]
      rintro ⟨-, -, hs⟩
      exact hs hse.1 hse.2
    · rw [if_neg (by
        rw [Bool.and_eq_true]
        rintro ⟨hs, hl⟩
        exact hse ⟨hs, by simpa using hl⟩)]
      by_cases hdup : tags.Nodup
      · rw [if_neg (by
          rw [Decidable.not_not]
          exact congrArg List.length (List.dedup_eq_self.mpr hdup))]
        simp only [true_iff]
        refine ⟨hall, hdup, ?_⟩
        intro hs hl
        exact hse ⟨hs, hl⟩
      · rw [if_pos (by
          intro hlen
          exact hdup (List.dedup_eq_self.mp ((List.dedup_sublist tags).eq_of_length hlen)))]
        simp only [reduceCtorEq, false_iff]
        rintro ⟨-, hnd, -⟩
        exact hdup hnd

/-! ## Concrete collaborators and records used by the closed theorems -/

/-- A sanitizer that is the identity (any sanitizer fixes already-clean
text; the closed statements below use clean inputs). -/
def cleanId : String → String := fun s => s

/-- A thumbnail legality check that accepts everything. -/
def thumbOk : Option String → Option String := fun _ => none

/-- A url-fragment legality check that accepts everything. -/
def urlOk : String → Option String := fun _ => none

/-- A concrete name-to-id resolution: the one username "alice" resolves to
the user id "uid1"; no other string is a known username. -/
def uidOfDemo : Option String → Option String :=
  fun u => if u == some "alice" then some "uid1" else none

/-- A concrete datetime-to-string conversion. -/
def dtToStrDemo : Nat → String := fun n => toString n

/-- A concrete string-to-datetime conversion. -/
def strToDtDemo : String → Nat := fun s => s.toNat?.getD 0

/-- A concrete blog post, strictly valid under the collaborators above,
authored by the user with id "uid1". -/
def post1 : BlogPost :=
  { id := "abcdefghijkl", author_id := some "uid1", title := "Sample Title",
    content := "hello", url_fragment := "sample-title", tags := ["news"],
    thumbnail_filename := some "image.svg", last_updated := none,
    published_on := none }

/-- The stored record of a post titled "Sample Title". -/
def modelA : BlogPostModelRec :=
  { id := "abcdefghijkl", title := "Sample Title", url_fragment := "sample-title" }

/-- The stored record of a post titled "My Post" with url slug "my-post". -/
def modelB : BlogPostModelRec :=
  { id := "mnopqrstuvwx", title := "My Post", url_fragment := "my-post" }

/-- A summary-title lookup whose stored title is stale. -/
def summaryTitleStale : String → String := fun _ => "Old Title"

/-! ## Claim theorems -/

/-- C1 counterexample: `post1` is strictly valid, yet deserializing its
serialization does not return it — the author reference comes back as
`None` because `to_dict` stores `get_user_id_from_username(author_id)`
(a name-to-id resolution applied to an id) under `author_name` and
`from_dict` applies the same resolution again. -/
theorem deserialize_serialize_not_identity :
    BlogPost.validateRun thumbOk urlOk 40 post1 true = (post1, none) ∧
      BlogPost.deserialize cleanId uidOfDemo strToDtDemo
        (BlogPost.serialize uidOfDemo dtToStrDemo post1) ≠ post1 ∧
      (BlogPost.deserialize cleanId uidOfDemo strToDtDemo
        (BlogPost.serialize uidOfDemo dtToStrDemo post1)).author_id = none := by
  refine ⟨by decide, by decide, by decide⟩

/-- C1 amended: the round trip restores id, title, thumbnail, tags and url
fragment exactly, restores content for sanitizer-fixed content (which every
constructed post's content is), passes each timestamp through the
string-conversion round trip with null encoded as an absent key — but
replaces the author reference by the name-to-id resolver applied to the
already-resolved `author_name` value, which in general differs from the
original reference. -/
theorem deserialize_serialize_fields (clean : String → String)
    (uidOf : Option String → Option String) (dtToStr : Nat → String)
    (strToDt : String → Nat) (p : BlogPost)
    (hclean : clean p.content = p.content) :
    BlogPost.deserialize clean uidOf strToDt
        (BlogPost.serialize uidOf dtToStr p) =
      { p with
          author_id := uidOf (uidOf p.author_id),
          last_updated := p.last_updated.map (fun t => strToDt (dtToStr t)),
          published_on := p.published_on.map (fun t => strToDt (dtToStr t)) } := by
  obtain ⟨pid, author, title, content, url, tags, thumb, lu, po⟩ := p
  simp only at hclean
  unfold BlogPost.deserialize BlogPost.serialize BlogPost.from_dict
    BlogPost.to_dict BlogPost.init
  cases lu <;> cases po <;> simp [hclean]

/-- Witness for the amended C1 theorem at the concrete post `post1`. -/
theorem deserialize_serialize_fields_witness :
    BlogPost.deserialize cleanId uidOfDemo strToDtDemo
        (BlogPost.serialize uidOfDemo dtToStrDemo post1) =
      { post1 with
          author_id := uidOfDemo (uidOfDemo post1.author_id),
          last_updated := post1.last_updated.map
            (fun t => strToDtDemo (dtToStrDemo t)),
          published_on := post1.published_on.map
            (fun t => strToDtDemo (dtToStrDemo t)) } :=
  deserialize_serialize_fields cleanId uidOfDemo dtToStrDemo strToDtDemo post1 rfl

/-- C3 counterexample: `update_content` writes strictly-invalid empty
content without raising, and `update_thumbnail_filename` writes a
strictly-invalid empty new thumbnail filename because the only check it
runs is on the old value. -/
theorem update_content_unvalidated :
    BlogPost.update_content cleanId post1 "" =
        Except.ok { post1 with content := "" } ∧
      BlogPost.update_thumbnail_filename thumbOk post1 (some "") =
        Except.ok { post1 with thumbnail_filename := some "" } := by
  refine ⟨rfl, rfl⟩

/-- C3 amended: `update_title` and `update_tags` validate the new value
strictly and write only the touched field, `update_url_fragment` checks
the new fragment against the url-fragment ruleset and writes only it,
`update_thumbnail_filename` validates the current thumbnail filename
non-strictly (never the new value) and then writes the new value, and
`update_content` performs no validation at all, writing the sanitized new
content. -/
theorem update_operations_behaviour (titleLimit : Nat)
    (clean : String → String) (urlCheck : String → Option String)
    (utilsThumb : Option String → Option String) (p : BlogPost)
    (t u c : String) (tg : List String) (x : Option String) :
    ((∃ q, BlogPost.update_title titleLimit p t = Except.ok q) ↔
        BlogPost.require_valid_title titleLimit t true = none) ∧
    (∀ q, BlogPost.update_title titleLimit p t = Except.ok q →
        q = { p with title := t }) ∧
    ((∃ q, BlogPost.update_tags p tg = Except.ok q) ↔
        BlogPost.require_valid_tags tg true = none) ∧
    (∀ q, BlogPost.update_tags p tg = Except.ok q → q = { p with tags := tg }) ∧
    ((∃ q, BlogPost.update_url_fragment urlCheck p u = Except.ok q) ↔
        urlCheck u = none) ∧
    (∀ q, BlogPost.update_url_fragment urlCheck p u = Except.ok q →
        q = { p with url_fragment := u }) ∧
    ((∃ q, BlogPost.update_thumbnail_filename utilsThumb p x = Except.ok q) ↔
        BlogPost.require_valid_thumbnail_filename utilsThumb
          p.thumbnail_filename false = none) ∧
    (∀ q, BlogPost.update_thumbnail_filename utilsThumb p x = Except.ok q →
        q = { p with thumbnail_filename := x }) ∧
    BlogPost.update_content clean p c = Except.ok { p with content := clean c } := by
  refine ⟨?_, ?_, ?_, ?_, ?_, ?_, ?_, ?_, rfl⟩
  · rw [BlogPost.update_title]
    cases h : BlogPost.require_valid_title titleLimit t true <;> simp
  · intro q hq
    rw [BlogPost.update_title] at hq
    cases h : BlogPost.require_valid_title titleLimit t true <;> rw [h] at hq <;>
      simp at hq
    exact hq.symm
  · rw [BlogPost.update_tags]
    cases h : BlogPost.require_valid_tags tg true <;> simp
  · intro q hq
    rw [BlogPost.update_tags] at hq
    cases h : BlogPost.require_valid_tags tg true <;> rw [h] at hq <;> simp at hq
    exact hq.symm
  · rw [BlogPost.update_url_fragment]
    cases h : urlCheck u <;> simp
  · intro q hq
    rw [BlogPost.update_url_fragment] at hq
    cases h : urlCheck u <;> rw [h] at hq <;> simp at hq
    exact hq.symm
  · rw [BlogPost.update_thumbnail_filename]
    cases h : BlogPost.require_valid_thumbnail_filename utilsThumb
      p.thumbnail_filename false <;> simp
  · intro q hq
    rw [BlogPost.update_thumbnail_filename] at hq
    cases h : BlogPost.require_valid_thumbnail_filename utilsThumb
      p.thumbnail_filename false <;> rw [h] at hq <;> simp at hq
    exact hq.symm

/-- C4 counterexample: in strict mode the post's title validator rejects
"Hi!" — it fails the word-and-space pattern — while the summary's title
validator accepts it, so the two validators do not accept the same
inputs. -/
theorem summary_title_not_mirroring :
    (BlogPost.require_valid_title 40 "Hi!" true).isSome = true ∧
      BlogPostSummary.require_valid_title 40 "Hi!" true = none := by decide

/-- C4 amended: the tags validators coincide, the thumbnail validators
accept exactly the same inputs in both modes (their messages differ only in
a final period), and the title validators accept the same inputs in
non-strict mode; in strict mode acceptance by the post's title validator
implies acceptance by the summary's but not conversely — the summary
checks only non-emptiness and the length cap, without the word-and-space
pattern. -/
theorem summary_validators_mirror (titleLimit : Nat)
    (utilsThumb : Option String → Option String) (tags : List String)
    (strict : Bool) (title : String) (x : Option String) :
    BlogPostSummary.require_valid_tags tags strict =
        BlogPost.require_valid_tags tags strict ∧
      (BlogPostSummary.require_valid_thumbnail_filename utilsThumb x strict).isNone =
        (BlogPost.require_valid_thumbnail_filename utilsThumb x strict).isNone ∧
      (BlogPostSummary.require_valid_title titleLimit title false).isNone =
        (BlogPost.require_valid_title titleLimit title false).isNone ∧
      (BlogPost.require_valid_title titleLimit title strict = none →
        BlogPostSummary.require_valid_title titleLimit title strict = none) := by
  refine ⟨rfl, ?_, ?_, ?_⟩
  · rw [BlogPostSummary.require_valid_thumbnail_filename,
      BlogPost.require_valid_thumbnail_filename]
    split_ifs <;> rfl
  · by_cases hl : titleLimit < title.length <;>
      simp [BlogPostSummary.require_valid_title, BlogPost.require_valid_title, hl]
  · intro h
    rw [BlogPost.require_valid_title] at h
    rw [BlogPostSummary.require_valid_title]
    by_cases hl : titleLimit < title.length
    · rw [if_pos hl] at h
      exact absurd h (by simp)
    · rw [if_neg hl] at h
      rw [if_neg hl]
      cases strict with
      | false =>
        rw [if_neg Bool.false_ne_true]
      | true =>
        rw [if_pos rfl] at h
        rw [if_pos rfl]
        by_cases he : title = ""
        · rw [if_pos he] at h
          exact absurd h (by simp)
        · rw [if_neg he]

/-- C5 (code bug): on a record whose non-empty title differs from the
paired summary's, `process` raises `NameError` — the yield line names the
unbound `blog_validation_errors` (and `model`) — instead of yielding the
one mismatch error; the matching-title and empty-title branches yield
nothing, as the claim states. -/
theorem process_title_mismatch_raises :
    ValidateTitleMatchesSummaryModelTitle.process summaryTitleStale modelA =
        Except.error (PyErr.nameError "blog_validation_errors") ∧
      ValidateTitleMatchesSummaryModelTitle.process
        (fun _ => "Sample Title") modelA = Except.ok [] ∧
      ValidateTitleMatchesSummaryModelTitle.process summaryTitleStale
        { modelA with title := "" } = Except.ok [] := by
  refine ⟨rfl, rfl, rfl⟩

/-- C6 (code bug): the strictness selector raises `NameError` on every
record — its body names the unbound `blog_services`, `item` and
`VALIDATION_MODES` — and so never returns a mode derived from the paired
rights record's published flag. -/
theorem validation_type_selection_raises :
    getDomainObjectValidationType modelA =
      Except.error (PyErr.nameError "blog_services") := rfl

/-- C7 (code bug): the duplicate-url error's message is built from the
record's title, not its url slug — for the record titled "My Post" with
slug "my-post" the message quotes the title and not the slug. -/
theorem duplicate_url_error_quotes_title :
    DuplicateBlogUrlError.message modelB = "url=\x22My Post\x22 is not unique" ∧
      DuplicateBlogUrlError.message modelB ≠
        "url=\x22my-post\x22 is not unique" := by
  refine ⟨rfl, by decide⟩

/-- C8: strict validation of a post whose other fields pass their strict
checks but whose content is the empty string raises exactly "Content can
not be empty", and the post comes out of the call unchanged. -/
theorem validate_strict_empty_content (utilsThumb : Option String → Option String)
    (urlCheck : String → Option String) (titleLimit : Nat) (p : BlogPost)
    (hid : require_valid_blog_post_id p.id = none)
    (htitle : BlogPost.require_valid_title titleLimit p.title true = none)
    (htags : BlogPost.require_valid_tags p.tags true = none)
    (hthumb : BlogPost.require_valid_thumbnail_filename utilsThumb
      p.thumbnail_filename true = none)
    (hurl : urlCheck p.url_fragment = none)
    (hcontent : p.content = "") :
    BlogPost.validateRun utilsThumb urlCheck titleLimit p true =
      (p, some "Content can not be empty") := by
  rw [BlogPost.validateRun, hid, htitle, htags, hthumb]
  simp [hurl, hcontent]

/-- Witness for C8 at the concrete post `post1` with its content emptied. -/
theorem validate_strict_empty_content_witness :
    BlogPost.validateRun thumbOk urlOk 40 { post1 with content := "" } true =
      ({ post1 with content := "" }, some "Content can not be empty") :=
  validate_strict_empty_content thumbOk urlOk 40 { post1 with content := "" }
    (by decide) (by decide) (by decide) (by decide) rfl rfl

/-- C9: `is_editor` is a membership test in the editor list, and an
unset (`None`) user is never an editor, whatever the editor list holds. -/
theorem is_editor_membership (r : BlogPostRights) (u : String) :
    (r.is_editor (some u) = true ↔ u ∈ r.editor_ids) ∧
      r.is_editor none = false := by
  constructor
  · rw [BlogPostRights.is_editor, List.any_eq_true]
    constructor
    · rintro ⟨e, he, hq⟩
      rw [show pyEqOptStr (some u) e = (u == e) from rfl, beq_iff_eq] at hq
      rwa [hq]
    · intro hu
      exact ⟨u, hu, by simp [pyEqOptStr]⟩
  · rw [BlogPostRights.is_editor]
    simp [pyEqOptStr]

/-- C10: `validate` is read-only — for both domain classes and either
strictness flag, the object coming out of the call is the object that went
in, whether a message is raised or not. -/
theorem validate_is_readonly (utilsThumb : Option String → Option String)
    (urlCheck : String → Option String) (titleLimit : Nat)
    (p : BlogPost) (s : BlogPostSummary) (strict : Bool) :
    (BlogPost.validateRun utilsThumb urlCheck titleLimit p strict).1 = p ∧
      (BlogPostSummary.validateRun utilsThumb urlCheck titleLimit s strict).1 = s := by
  constructor
  · rw [BlogPost.validateRun]
    repeat' split
    all_goals rfl
  · rw [BlogPostSummary.validateRun]
    repeat' split
    all_goals rfl

end Oppia

